import Mathlib

/-!
Shallow embedding of `src/data/cargar_datos.py` (a one-shot synthetic-data
loader for the schema sede, docente, clase, matricula, alumno,
clase_has_sede, pago, asistencia).

Modelling conventions:
* Python's global pseudo-random stream is abstracted by oracles: every call
  site that draws randomness receives its draw from an explicit argument
  (a rational in the unit interval for `random.random()`, a natural index
  for `random.choice` / `random.randint`, a rational for `random.uniform`).
* `Decimal` values and datetimes are embedded as rationals; `round(x, 2)`
  becomes rounding to an integer multiple of 1/100.
* Python strings are embedded as `List Char`.
* `cursor.lastrowid` (the autoincrement id handed back by the database) is
  an oracle `Nat → Nat` per table.
* The try/except/finally control-flow skeleton is embedded separately as an
  executor over a list of database operations, each marked as absorbed
  (wrapped in an inner try/except that passes) or fatal-eligible
  (propagating to the single outermost handler).
-/

namespace CargarDatos

/-! ### Generation parameters (lines 48-51 of the source) -/

def N : Nat := 1000

def nullRatio : ℚ := 10 / 100

def lowVarianceRatio : ℚ := 70 / 100

def BATCH : Nat := 200

/-! ### Python primitives -/

/-- Model of `random.randint(a, b)`: a uniformly drawn integer in `[a, b]`; the
oracle index `k` is reduced modulo the size of the range. -/
def pyRandint (a b k : Nat) : Nat := a + k % (b + 1 - a)

/-- Model of `random.choice(xs)`: an element of `xs` selected by the oracle index
`k` (total, with a default for the empty list Python would raise on). -/
def pyChoiceD (xs : List α) (d : α) (k : Nat) : α := xs.getD (k % xs.length) d

/-- Model of `str.strip()`: drop leading and trailing whitespace. -/
def pyStrip (s : List Char) : List Char :=
  ((s.dropWhile Char.isWhitespace).reverse.dropWhile Char.isWhitespace).reverse

/-- The constant `string.ascii_letters`. -/
def asciiLetters : List Char :=
  ("abcdefghijklmnopqrstuvwxyzABCDEFGHIJKLMNOPQRSTUVWXYZ").toList

/-- The pool `string.ascii_letters + ' '` used by `rand_text`. -/
def charPool : List Char := asciiLetters ++ [' ']

/-- Lines 55-57: `rand_text(min_len, max_len)` draws a length
`l = randint(min_len, max_len)`, draws `l` characters from `charPool`,
joins them and strips surrounding whitespace. `kLen` is the oracle for the
length draw and `ch i` the oracle for the i-th character draw. -/
def rand_text (minLen maxLen : Nat) (kLen : Nat) (ch : Nat → Nat) : List Char :=
  let l := pyRandint minLen maxLen kLen
  pyStrip ((List.range l).map fun i => pyChoiceD charPool 'a' (ch i))

/-- Lines 60-61: `maybe_null(value)` replaces the value by `None` when the
unit-interval draw `r` falls below `nullRatio`. -/
def maybe_null (r : ℚ) (v : α) : Option α :=
  if r < nullRatio then none else some v

/-- Lines 64-67: `random_date(start_days_ago, end_days_ago)`: datetimes are
embedded as rational timestamps (seconds); `now` is the current timestamp
and `r` the unit-interval draw. -/
def random_date (startDaysAgo endDaysAgo : Nat) (now r : ℚ) : ℚ :=
  let start := now - 86400 * (startDaysAgo : ℚ)
  let stop := now - 86400 * (endDaysAgo : ℚ)
  start + (stop - start) * r

/-- Model of `Decimal(str(round(x, 2)))`: round to an integer multiple of 1/100,
kept exactly as a rational (the float detour is abstracted away; the
resulting value is the two-decimal fixed-point number). -/
def round2 (q : ℚ) : ℚ := ((round (q * 100) : ℤ) : ℚ) / 100

/-! ### Row generation: sede (lines 115-130) -/

structure SedeRand where
  lv : ℚ
  tLen : Nat
  tCh : Nat → Nat
  city : Nat
  nullU : ℚ

structure SedeRow where
  nombre_sede : List Char
  ubicacion : Option (List Char)

def common_sede_name : List Char := ("Sede Principal").toList

def ciudadLetras : List Char := ['A', 'B', 'C', 'D', 'E']

def genSede (r : SedeRand) : SedeRow :=
  let nombre := if r.lv < lowVarianceRatio then common_sede_name
    else ("Sede ").toList ++ rand_text 4 10 r.tLen r.tCh
  { nombre_sede := nombre
    ubicacion := maybe_null r.nullU (("Ciudad ").toList ++ [pyChoiceD ciudadLetras 'A' r.city]) }

/-! ### Row generation: docente (lines 132-147) -/

structure DocenteRand where
  lv : ℚ
  nameIdx : Nat
  surIdx : Nat
  nullN : ℚ

structure DocenteRow where
  nombre_docente : Option (List Char)

def common_docente : List Char := ("Profesor Común").toList

def nombres_base : List (List Char) :=
  [("Ana").toList, ("Juan").toList, ("Luis").toList, ("Marta").toList,
   ("Carolina").toList, ("Pedro").toList]

def apellidos : List (List Char) :=
  [("Gómez").toList, ("Pérez").toList, ("López").toList, ("Torres").toList,
   ("Ruiz").toList]

def genDocente (r : DocenteRand) : DocenteRow :=
  let nombre := if r.lv < lowVarianceRatio then common_docente
    else pyChoiceD nombres_base [] r.nameIdx ++ [' '] ++ pyChoiceD apellidos [] r.surIdx
  { nombre_docente := maybe_null r.nullN nombre }

/-! ### Row generation: clase (lines 149-164) -/

structure ClaseRand where
  lv : ℚ
  depIdx : Nat
  tLen : Nat
  tCh : Nat → Nat
  nullN : ℚ
  fkDoc : Nat

structure ClaseRow where
  nombre_clase : Option (List Char)
  docente_id : Nat

def deportes : List (List Char) :=
  [("Voleibol").toList, ("Fútbol").toList, ("Baloncesto").toList]

def genClase (docenteIds : List Nat) (r : ClaseRand) : ClaseRow :=
  let nombre := if r.lv < lowVarianceRatio then pyChoiceD deportes [] r.depIdx
    else rand_text 6 18 r.tLen r.tCh
  { nombre_clase := maybe_null r.nullN nombre
    docente_id := pyChoiceD docenteIds 0 r.fkDoc }

/-! ### Row generation: matricula (lines 166-180) -/

structure MatriculaRand where
  lv : ℚ
  uCosto : ℚ
  nullC : ℚ
  dateR : ℚ

structure MatriculaRow where
  costo : Option ℚ
  fecha_pago : ℚ

def genMatricula (now : ℚ) (r : MatriculaRand) : MatriculaRow :=
  let costo : ℚ := if r.lv < lowVarianceRatio then 100000 else round2 r.uCosto
  { costo := maybe_null r.nullC costo
    fecha_pago := random_date (365 * 2) 0 now r.dateR }

/-! ### Row generation: alumno (lines 182-198) -/

structure AlumnoRand where
  lv : ℚ
  nameIdx : Nat
  surIdx : Nat
  nullN : ℚ
  fkMat : Nat
  fkSede : Nat

structure AlumnoRow where
  nombre_alumno : Option (List Char)
  matricula_id : Nat
  sede_id : Nat

def nombres_alumno : List (List Char) :=
  [("Andrés").toList, ("Lucía").toList, ("Diego").toList, ("Sofía").toList,
   ("Camila").toList, ("Miguel").toList]

def apellidos_alumno : List (List Char) :=
  [("Gómez").toList, ("Pérez").toList, ("López").toList, ("Torres").toList]

def genAlumno (matriculaIds sedeIds : List Nat) (r : AlumnoRand) : AlumnoRow :=
  let nombre := if r.lv < lowVarianceRatio then ("Estudiante Test").toList
    else pyChoiceD nombres_alumno [] r.nameIdx ++ [' '] ++ pyChoiceD apellidos_alumno [] r.surIdx
  { nombre_alumno := maybe_null r.nullN nombre
    matricula_id := pyChoiceD matriculaIds 0 r.fkMat
    sede_id := pyChoiceD sedeIds 0 r.fkSede }

/-! ### clase_has_sede retry loop (lines 200-215) -/

structure LinkState where
  ins : Nat
  att : Nat
  pares : List (Nat × Nat)
  deriving DecidableEq, Repr

def linkInit : LinkState := { ins := 0, att := 0, pares := [] }

/-- One iteration of the `while` body: increment `intentos`, pick a class
id and a site id, attempt the insert; the insert succeeds exactly when the
pair does not violate the `clase_has_sede` uniqueness constraint (is not
already present), in which case `relaciones_insertadas` is incremented and
the pair recorded; a duplicate raises, is absorbed by the inner
`except: pass`, and changes nothing but the attempt count. -/
def linkStep (claseIds sedeIds : List Nat) (o : Nat → Nat × Nat) (s : LinkState) : LinkState :=
  if (pyChoiceD claseIds 0 (o s.att).1, pyChoiceD sedeIds 0 (o s.att).2) ∈ s.pares then
    { s with att := s.att + 1 }
  else
    { ins := s.ins + 1, att := s.att + 1,
      pares := (pyChoiceD claseIds 0 (o s.att).1, pyChoiceD sedeIds 0 (o s.att).2) :: s.pares }

/-- The `while relaciones_insertadas < N and intentos < N * 4` loop, run
with explicit fuel (the loop body increases `att` by one each iteration,
so fuel `4 * N` starting from `att = 0` is never exhausted before the
guard fails; this is proved below). -/
def linkLoop (claseIds sedeIds : List Nat) (o : Nat → Nat × Nat) : Nat → LinkState → LinkState
  | 0, s => s
  | fuel + 1, s =>
    if s.ins < N ∧ s.att < N * 4 then
      linkLoop claseIds sedeIds o fuel (linkStep claseIds sedeIds o s)
    else s

def linkRun (claseIds sedeIds : List Nat) (o : Nat → Nat × Nat) : LinkState :=
  linkLoop claseIds sedeIds o (N * 4) linkInit

/-! ### Batched persistence for pago / asistencia (lines 217-259) -/

structure BatchState (α : Type) where
  batch : List α
  flushed : List α
  count : Nat
  commits : Nat

def batchInit : BatchState α := { batch := [], flushed := [], count := 0, commits := 0 }

/-- Append one generated row to the pending batch; when the batch reaches
`BATCH` rows, `executemany` + `commit` flush it and the per-table counter
accumulates the flushed length. -/
def pushBatch (s : BatchState α) (row : α) : BatchState α :=
  if BATCH ≤ (s.batch ++ [row]).length then
    { batch := [], flushed := s.flushed ++ (s.batch ++ [row]),
      count := s.count + (s.batch ++ [row]).length, commits := s.commits + 1 }
  else
    { s with batch := s.batch ++ [row] }

/-- The trailing `if pagos_batch:` / `if asistencia_batch:` remainder
flush: only performed when the pending batch is nonempty. -/
def finishBatch (s : BatchState α) : BatchState α :=
  if s.batch.isEmpty then s
  else
    { batch := [], flushed := s.flushed ++ s.batch, count := s.count + s.batch.length,
      commits := s.commits + 1 }

def batchRun (rows : List α) : BatchState α :=
  finishBatch (rows.foldl pushBatch batchInit)

/-! ### Row generation: pago (lines 217-239) -/

structure PagoRand where
  dateR : ℚ
  lvV : ℚ
  uV : ℚ
  perR : ℚ
  perIdx : Nat
  perLen : Nat
  perCh : Nat → Nat
  nullV : ℚ
  nullP : ℚ
  fkAl : Nat

structure PagoRow where
  fecha : ℚ
  valor_pago : Option ℚ
  periodo : Option (List Char)
  alumno_id : Nat

def periods : List (List Char) :=
  [("2025-01").toList, ("2025-02").toList, ("2025-03").toList,
   ("2025-04").toList, ("2025-05").toList]

def common_val : ℚ := 50000

def genPago (alumnoIds : List Nat) (now : ℚ) (r : PagoRand) : PagoRow :=
  let valor : ℚ := if r.lvV < lowVarianceRatio then common_val else round2 r.uV
  let periodo := if 15 / 100 < r.perR then pyChoiceD periods [] r.perIdx
    else rand_text 4 7 r.perLen r.perCh
  { fecha := random_date 365 0 now r.dateR
    valor_pago := maybe_null r.nullV valor
    periodo := maybe_null r.nullP periodo
    alumno_id := pyChoiceD alumnoIds 0 r.fkAl }

/-! ### Row generation: asistencia (lines 241-259) -/

structure AsistRand where
  dateR : ℚ
  fkAl : Nat
  fkCl : Nat
  fkSede : Nat

structure AsistRow where
  fecha : ℚ
  alumno_id : Nat
  clase_id : Nat
  sede_id : Nat

def genAsist (alumnoIds claseIds sedeIds : List Nat) (now : ℚ) (r : AsistRand) : AsistRow :=
  { fecha := random_date 90 0 now r.dateR
    alumno_id := pyChoiceD alumnoIds 0 r.fkAl
    clase_id := pyChoiceD claseIds 0 r.fkCl
    sede_id := pyChoiceD sedeIds 0 r.fkSede }

/-! ### The full generation run -/

/-- All the randomness and database-assigned ids a complete run consumes,
one entry per row index (the id oracles model `cursor.lastrowid`). -/
structure Oracles where
  now : ℚ
  sede : Nat → SedeRand
  sedeId : Nat → Nat
  docente : Nat → DocenteRand
  docenteId : Nat → Nat
  clase : Nat → ClaseRand
  claseId : Nat → Nat
  matricula : Nat → MatriculaRand
  matriculaId : Nat → Nat
  alumno : Nat → AlumnoRand
  alumnoId : Nat → Nat
  link : Nat → Nat × Nat
  pago : Nat → PagoRand
  asistencia : Nat → AsistRand

def sedeRows (o : Oracles) : List SedeRow := (List.range N).map fun i => genSede (o.sede i)

def sede_ids (o : Oracles) : List Nat := (List.range N).map o.sedeId

def docenteRows (o : Oracles) : List DocenteRow :=
  (List.range N).map fun i => genDocente (o.docente i)

def docente_ids (o : Oracles) : List Nat := (List.range N).map o.docenteId

def claseRows (o : Oracles) : List ClaseRow :=
  (List.range N).map fun i => genClase (docente_ids o) (o.clase i)

def clase_ids (o : Oracles) : List Nat := (List.range N).map o.claseId

def matriculaRows (o : Oracles) : List MatriculaRow :=
  (List.range N).map fun i => genMatricula o.now (o.matricula i)

def matricula_ids (o : Oracles) : List Nat := (List.range N).map o.matriculaId

def alumnoRows (o : Oracles) : List AlumnoRow :=
  (List.range N).map fun i => genAlumno (matricula_ids o) (sede_ids o) (o.alumno i)

def alumno_ids (o : Oracles) : List Nat := (List.range N).map o.alumnoId

def linkRunO (o : Oracles) : LinkState := linkRun (clase_ids o) (sede_ids o) o.link

def pagoRows (o : Oracles) : List PagoRow :=
  (List.range N).map fun i => genPago (alumno_ids o) o.now (o.pago i)

def pagoRun (o : Oracles) : BatchState PagoRow := batchRun (pagoRows o)

def asistRows (o : Oracles) : List AsistRow :=
  (List.range N).map fun i => genAsist (alumno_ids o) (clase_ids o) (sede_ids o) o.now (o.asistencia i)

def asistRun (o : Oracles) : BatchState AsistRow := batchRun (asistRows o)

/-! ### Final summary (lines 261-270) -/

structure Resumen where
  sedes : Nat
  docentes : Nat
  clases : Nat
  matriculas : Nat
  alumnos : Nat
  clase_has_sede : Nat
  pagos : Nat
  asistencias : Nat
  deriving DecidableEq, Repr

def resumen (o : Oracles) : Resumen :=
  { sedes := (sede_ids o).length
    docentes := (docente_ids o).length
    clases := (clase_ids o).length
    matriculas := (matricula_ids o).length
    alumnos := (alumno_ids o).length
    clase_has_sede := (linkRunO o).ins
    pagos := (pagoRun o).count
    asistencias := (asistRun o).count }

/-! ### Insertion trace

The run inserts rows table by table in the source order; the trace lists,
per inserted row, the table it goes to and the foreign-key values the row
carries. For the link table the pairs are recorded most-recent-first in
`LinkState.pares`, so the trace reverses them into insertion order. -/

inductive Tabla where
  | sede | docente | clase | matricula | alumno | clase_has_sede | pago | asistencia
  deriving DecidableEq, Repr

def insertTrace (o : Oracles) : List (Tabla × List Nat) :=
  (sedeRows o).map (fun _ => (Tabla.sede, []))
    ++ (docenteRows o).map (fun _ => (Tabla.docente, []))
    ++ (claseRows o).map (fun r => (Tabla.clase, [r.docente_id]))
    ++ (matriculaRows o).map (fun _ => (Tabla.matricula, []))
    ++ (alumnoRows o).map (fun r => (Tabla.alumno, [r.matricula_id, r.sede_id]))
    ++ (linkRunO o).pares.reverse.map (fun p => (Tabla.clase_has_sede, [p.1, p.2]))
    ++ (pagoRun o).flushed.map (fun r => (Tabla.pago, [r.alumno_id]))
    ++ (asistRun o).flushed.map (fun r => (Tabla.asistencia, [r.alumno_id, r.clase_id, r.sede_id]))

/-! ### Commit counting for the one-row-at-a-time tables

Lines 118-129 (and the analogous loops for docente, clase, matricula,
alumno): inside the `for i in range(rows)` loop a `conn.commit()` runs
whenever `(i + 1) % BATCH == 0`, and one more `conn.commit()` runs
unconditionally right after the loop. -/

def commitsOne (rows : Nat) : Nat :=
  (List.range rows).countP (fun i => (i + 1) % BATCH == 0) + 1

/-! ### Schema relaxation (lines 89-113) -/

def alters : List String :=
  ["ALTER TABLE sede MODIFY nombre_sede VARCHAR(100) NULL",
   "ALTER TABLE sede MODIFY ubicacion VARCHAR(45) NULL",
   "ALTER TABLE docente MODIFY nombre_docente VARCHAR(45) NULL",
   "ALTER TABLE clase MODIFY nombre_clase VARCHAR(45) NULL",
   "ALTER TABLE alumno MODIFY nombre_alumno VARCHAR(45) NULL",
   "ALTER TABLE matricula MODIFY costo DECIMAL(10,2) NULL",
   "ALTER TABLE pago MODIFY periodo VARCHAR(7) NULL",
   "ALTER TABLE pago MODIFY valor_pago DECIMAL(10,2) NULL",
   "ALTER TABLE pago MODIFY fecha DATETIME NULL",
   "ALTER TABLE asistencia MODIFY fecha DATETIME NULL"]

/-- Lines 101-108: the relaxation loop. `fails i` tells whether the i-th
ALTER raises (privilege missing or already applied); the `except: pass`
absorbs it. Returns `(applied_alters, attempted)`. -/
def runAlters (fails : Nat → Bool) : Nat × Nat :=
  (List.range alters.length).foldl
    (fun p i => (if fails i then p.1 else p.1 + 1, p.2 + 1)) (0, 0)

/-! ### Control-flow skeleton: the try/except Error/finally shape

Every database call the script makes inside the outer `try` is either
wrapped in an inner `try ... except: pass` (the ten ALTER statements and
the body of the clase_has_sede attempt loop) or not wrapped at all, in
which case an error it raises propagates to the single
`except Error as e` at the bottom of the file. -/

inductive OpKind where
  | absorbed
  | fatal
  deriving DecidableEq, Repr

/-- Run the listed database operations in order. `fail k` gives the error
message the k-th operation raises, if any. An `absorbed` operation never
stops execution, whatever it raised; a `fatal` operation that raises
propagates immediately, producing the error the outermost handler sees. -/
def execOps (fail : Nat → Option String) : List OpKind → Nat → Option String
  | [], _ => none
  | OpKind.absorbed :: rest, k => execOps fail rest (k + 1)
  | OpKind.fatal :: rest, k =>
    match fail k with
    | some msg => some msg
    | none => execOps fail rest (k + 1)

/-- Operations of a one-row-at-a-time table loop: per row one INSERT plus,
every `BATCH` rows, one commit; then the unconditional commit after the
loop. All are fatal-eligible. -/
def oneAtATimeOps : List OpKind :=
  ((List.range N).flatMap fun i =>
    OpKind.fatal :: (if (i + 1) % BATCH = 0 then [OpKind.fatal] else [])) ++ [OpKind.fatal]

/-- Operations of a batched table loop (pago, asistencia): an
`executemany` plus a commit per full batch, and the same pair again for a
nonempty remainder. -/
def batchedOps : List OpKind :=
  ((List.range N).flatMap fun i =>
    if (i + 1) % BATCH = 0 then [OpKind.fatal, OpKind.fatal] else [])
    ++ (if N % BATCH = 0 then [] else [OpKind.fatal, OpKind.fatal])

/-- The alter block: ten absorbed statements, then (line 110) a commit
only when at least one ALTER was applied. -/
def alterOps (anyApplied : Bool) : List OpKind :=
  List.replicate 10 OpKind.absorbed ++ (if anyApplied then [OpKind.fatal] else [])

/-- The whole generation body, in source order: connect, relax the schema,
the five one-at-a-time tables, the clase_has_sede attempt loop (absorbed
attempts, then the final commit of line 214), and the two batched tables. -/
def genOps (anyApplied : Bool) : List OpKind :=
  OpKind.fatal :: alterOps anyApplied
    ++ oneAtATimeOps ++ oneAtATimeOps ++ oneAtATimeOps ++ oneAtATimeOps ++ oneAtATimeOps
    ++ List.replicate (N * 4) OpKind.absorbed ++ [OpKind.fatal]
    ++ batchedOps ++ batchedOps

/-! ### Python `int()` and the port prompt (lines 43-44) -/

def digitsToNat (ds : List Char) : Nat :=
  ds.foldl (fun n c => 10 * n + (c.toNat - ('0').toNat)) 0

/-- Model of `int(s)` for a string: strip whitespace, allow an optional sign, then
require at least one digit; otherwise Python raises `ValueError`. -/
def pyInt (s : String) : Option Int :=
  match pyStrip s.toList with
  | [] => none
  | '-' :: ds => if ds ≠ [] ∧ ds.all Char.isDigit then some (-(digitsToNat ds : Int)) else none
  | '+' :: ds => if ds ≠ [] ∧ ds.all Char.isDigit then some (digitsToNat ds : Int) else none
  | ds => if ds.all Char.isDigit then some (digitsToNat ds : Int) else none

/-- Line 43: `input(...).strip() or "3306"`. -/
def portString (raw : String) : String :=
  let t := pyStrip raw.toList
  if t.isEmpty then "3306" else String.mk t

/-! ### Top-level program result -/

inductive Ev where
  | errLine (msg : String)
  | cursorClose
  | connClose
  deriving DecidableEq, Repr

structure ProgResult where
  events : List Ev
  uncaught : Bool
  deriving DecidableEq, Repr

/-- The program skeleton. The connection-parameter prompts, including
`port = int(port_input)` (line 44), run before the `try` of line 82: a
non-numeric port raises `ValueError` with no handler and no `finally` in
scope, so nothing is printed and nothing is closed. Otherwise the body
runs; a fatal database error is caught by the single `except Error` clause
(line 272), which prints the error line; the `finally` (lines 274-278)
then closes the cursor and the connection, and the process exits normally
either way. -/
def mainSkeleton (rawPort : String) (ops : List OpKind) (fail : Nat → Option String) :
    ProgResult :=
  match pyInt (portString rawPort) with
  | none => { events := [], uncaught := true }
  | some _ =>
    match execOps fail ops 0 with
    | some msg =>
      { events := [Ev.errLine msg, Ev.cursorClose, Ev.connClose], uncaught := false }
    | none => { events := [Ev.cursorClose, Ev.connClose], uncaught := false }

/-! ## Lemmas about the primitives -/

theorem pyChoiceD_mem (xs : List α) (d : α) (k : Nat) (h : xs ≠ []) :
    pyChoiceD xs d k ∈ xs := by
  have hlen : k % xs.length < xs.length := Nat.mod_lt _ (List.length_pos.mpr h)
  rw [pyChoiceD, List.getD_eq_getElem?_getD, List.getElem?_eq_getElem hlen]
  exact List.getElem_mem hlen

theorem pyStrip_length_le (s : List Char) : (pyStrip s).length ≤ s.length := by
  have h1 : ((s.dropWhile Char.isWhitespace).reverse.dropWhile Char.isWhitespace).length
      ≤ (s.dropWhile Char.isWhitespace).reverse.length :=
    ((List.dropWhile_suffix _).sublist).length_le
  have h2 : (s.dropWhile Char.isWhitespace).length ≤ s.length :=
    ((List.dropWhile_suffix _).sublist).length_le
  simp only [pyStrip, List.length_reverse] at h1 ⊢
  exact le_trans h1 h2

theorem pyRandint_le (a b k : Nat) (hab : a ≤ b) : pyRandint a b k ≤ b := by
  have h : k % (b + 1 - a) < b + 1 - a := Nat.mod_lt _ (by omega)
  unfold pyRandint
  omega

/-! ## C8: the length of `rand_text` -/

/-- C8 (counterexample): the claim says the result of
`rand_text(min_len, max_len)` with `0 < min_len ≤ max_len` always has
length at least `min_len`. At `min_len = max_len = 1`, when the single
character drawn is the space (index 52 of the pool), the final `strip()`
removes it and the result is empty, of length `0 < 1`. -/
theorem claim_c8_cex :
    0 < 1 ∧ 1 ≤ 1 ∧ (rand_text 1 1 0 (fun _ => 52)).length < 1 := by decide

/-- C8 (amended): for `min_len ≤ max_len` the result's length is at most
`max_len` (the pre-strip sample has length uniformly drawn in
`[min_len, max_len]`, but the trailing `strip()` can make the final string
shorter than `min_len`, down to empty). -/
theorem claim_c8_rand_text_len (minLen maxLen kLen : Nat) (ch : Nat → Nat)
    (h : minLen ≤ maxLen) : (rand_text minLen maxLen kLen ch).length ≤ maxLen := by
  unfold rand_text
  refine le_trans (pyStrip_length_le _) ?_
  rw [List.length_map, List.length_range]
  exact pyRandint_le _ _ _ h

theorem claim_c8_witness :
    5 ≤ 25 ∧ (rand_text 5 25 0 (fun _ => 0)).length ≤ 25 :=
  ⟨by decide, claim_c8_rand_text_len 5 25 0 (fun _ => 0) (by decide)⟩

/-! ## C4: commit counts of the one-row-at-a-time tables -/

theorem countP_batch_commits (rows : Nat) :
    (List.range rows).countP (fun i => (i + 1) % BATCH == 0) = rows / BATCH := by
  induction rows with
  | zero => simp
  | succ n ih =>
    rw [List.range_succ, List.countP_append, ih, Nat.succ_div]
    simp only [List.countP_cons, List.countP_nil, Nat.zero_add]
    by_cases h : (n + 1) % BATCH = 0
    · simp [Nat.dvd_iff_mod_eq_zero, h]
    · simp [Nat.dvd_iff_mod_eq_zero, h]

/-- C4 (counterexample): the claim says a flush for the remainder occurs
only when `r > 0`, so a table of exactly `1 × 200 + 0` rows would see only
the one full-batch flush. In the code the commit after the loop is
unconditional (line 129 and its analogues), so 200 rows produce 2 commits,
not 1. -/
theorem claim_c4_cex :
    commitsOne (1 * BATCH + 0) = 2 ∧ ¬commitsOne (1 * BATCH + 0) = 1 := by decide

/-- C4 (amended): a one-row-at-a-time table generating `k × 200 + r` rows
(`r < 200`) performs exactly `k + 1` commits in every case: `k` in-loop
commits at the full-batch boundaries plus the one unconditional commit
after the loop — including when `r = 0`, since that final commit is not
guarded by a remainder check. -/
theorem claim_c4_flush_count (k r : Nat) (h : r < BATCH) :
    commitsOne (k * BATCH + r) = k + 1 := by
  unfold commitsOne
  rw [countP_batch_commits, Nat.add_comm (k * BATCH) r,
    Nat.add_mul_div_right _ _ (by decide : 0 < BATCH), Nat.div_eq_of_lt h]
  omega

theorem claim_c4_witness :
    7 < BATCH ∧ commitsOne (2 * BATCH + 7) = 2 + 1 :=
  ⟨by decide, claim_c4_flush_count 2 7 (by decide)⟩

/-! ## Lemmas about the clase_has_sede loop -/

theorem linkStep_att (ci si : List Nat) (o : Nat → Nat × Nat) (s : LinkState) :
    (linkStep ci si o s).att = s.att + 1 := by
  unfold linkStep
  split <;> rfl

/-- The loop guard fails at the end of the run: each iteration adds one to
the attempt counter, so fuel covering `N * 4 - att` attempts suffices. -/
theorem linkLoop_exit (ci si : List Nat) (o : Nat → Nat × Nat) :
    ∀ (fuel : Nat) (s : LinkState), N * 4 ≤ s.att + fuel →
      ¬((linkLoop ci si o fuel s).ins < N ∧ (linkLoop ci si o fuel s).att < N * 4) := by
  intro fuel
  induction fuel with
  | zero =>
    intro s h
    unfold linkLoop
    omega
  | succ n ih =>
    intro s h
    rw [linkLoop]
    split
    · exact ih _ (by rw [linkStep_att]; omega)
    · assumption

/-- The loop invariant: pairs are distinct, drawn from the two id lists,
counted by `relaciones_insertadas`, and the counters stay within their
bounds. -/
structure LinkInv (ci si : List Nat) (s : LinkState) : Prop where
  nodup : s.pares.Nodup
  len : s.pares.length = s.ins
  insLe : s.ins ≤ N
  attLe : s.att ≤ N * 4
  mem : ∀ p ∈ s.pares, p.1 ∈ ci ∧ p.2 ∈ si

theorem linkStep_inv {ci si : List Nat} {o : Nat → Nat × Nat} {s : LinkState}
    (hci : ci ≠ []) (hsi : si ≠ []) (h : LinkInv ci si s)
    (hg : s.ins < N ∧ s.att < N * 4) : LinkInv ci si (linkStep ci si o s) := by
  unfold linkStep
  split
  · exact ⟨h.nodup, h.len, show s.ins ≤ N from h.insLe,
      show s.att + 1 ≤ N * 4 from by omega, h.mem⟩
  · next hnm =>
    refine ⟨List.nodup_cons.mpr ⟨hnm, h.nodup⟩,
      show ((pyChoiceD ci 0 (o s.att).1, pyChoiceD si 0 (o s.att).2) :: s.pares).length
        = s.ins + 1 from ?_,
      show s.ins + 1 ≤ N from by omega,
      show s.att + 1 ≤ N * 4 from by omega, ?_⟩
    · simpa using h.len
    · intro p hp
      rcases List.mem_cons.mp hp with h1 | h2
      · subst h1
        exact ⟨pyChoiceD_mem _ _ _ hci, pyChoiceD_mem _ _ _ hsi⟩
      · exact h.mem p h2

theorem linkLoop_inv {ci si : List Nat} {o : Nat → Nat × Nat} (hci : ci ≠ []) (hsi : si ≠ []) :
    ∀ (fuel : Nat) (s : LinkState), LinkInv ci si s →
      LinkInv ci si (linkLoop ci si o fuel s) := by
  intro fuel
  induction fuel with
  | zero =>
    intro s h
    exact h
  | succ n ih =>
    intro s h
    rw [linkLoop]
    split
    · exact ih _ (linkStep_inv hci hsi h (by assumption))
    · exact h

theorem linkInit_inv (ci si : List Nat) : LinkInv ci si linkInit :=
  ⟨List.nodup_nil, rfl, by simp [linkInit, N], by simp [linkInit], by simp [linkInit]⟩

theorem linkRun_inv {ci si : List Nat} (o : Nat → Nat × Nat)
    (hci : ci ≠ []) (hsi : si ≠ []) : LinkInv ci si (linkRun ci si o) :=
  linkLoop_inv hci hsi _ _ (linkInit_inv ci si)

theorem linkRun_exit (ci si : List Nat) (o : Nat → Nat × Nat) :
    ¬((linkRun ci si o).ins < N ∧ (linkRun ci si o).att < N * 4) :=
  linkLoop_exit ci si o (N * 4) linkInit (by omega)

theorem rangeN_map_ne_nil (f : Nat → Nat) : (List.range N).map f ≠ [] := by
  have hl : ((List.range N).map f).length = N := by simp
  intro h
  rw [h] at hl
  exact absurd hl.symm (by decide)

/-! ## C2: termination and exit condition of the clase_has_sede loop -/

/-- C2: in the run's clase_has_sede loop every iteration increments the
attempt counter `intentos` by exactly one; the loop stops exactly when
either `N = 1000` insertions succeeded or `N * 4 = 4000` attempts were
made; and when the attempt budget runs out first the run proceeds to the
summary, which reports the (then smaller than `N`) insertion count rather
than treating it as an error. -/
theorem claim_c2_link_termination (o : Oracles) :
    (∀ s, (linkStep (clase_ids o) (sede_ids o) o.link s).att = s.att + 1)
    ∧ ((linkRunO o).ins = N ∨ ((linkRunO o).att = N * 4 ∧ (linkRunO o).ins < N))
    ∧ (resumen o).clase_has_sede = (linkRunO o).ins := by
  have hci : clase_ids o ≠ [] := rangeN_map_ne_nil _
  have hsi : sede_ids o ≠ [] := rangeN_map_ne_nil _
  have hinv : LinkInv (clase_ids o) (sede_ids o) (linkRunO o) := linkRun_inv o.link hci hsi
  have hexit := linkRun_exit (clase_ids o) (sede_ids o) o.link
  refine ⟨fun s => linkStep_att _ _ _ s, ?_, by simp only [resumen]⟩
  by_cases h : (linkRunO o).ins = N
  · exact Or.inl h
  · right
    have h1 := hinv.insLe
    have h2 := hinv.attLe
    unfold linkRunO at h h1 h2 ⊢
    omega

/-! ## C5: uniqueness and bounds of the inserted pairs -/

/-- With an oracle that always selects the same pair, the loop can never
record a second insertion once that pair is present. -/
theorem linkLoop_const_pair (ci si : List Nat) (o : Nat → Nat × Nat) (p : Nat × Nat)
    (ho : ∀ k, (pyChoiceD ci 0 (o k).1, pyChoiceD si 0 (o k).2) = p) :
    ∀ (fuel : Nat) (s : LinkState), p ∈ s.pares →
      (linkLoop ci si o fuel s).ins = s.ins := by
  intro fuel
  induction fuel with
  | zero =>
    intro s _
    rfl
  | succ n ih =>
    intro s hp
    rw [linkLoop]
    split
    · have hstep : linkStep ci si o s = { s with att := s.att + 1 } := by
        unfold linkStep
        rw [if_pos (by rw [show (pyChoiceD ci 0 (o s.att).1, pyChoiceD si 0 (o s.att).2) = p
          from ho s.att] at *; exact hp)]
      rw [hstep]
      exact ih _ hp
    · rfl

/-- C5 (counterexample): the claim says that with `classes × sites ≥ 4000`
available pairs the loop produces exactly `N = 1000` unique pairs. With
100 class ids and 40 site ids (4000 pairs) but a random stream that keeps
selecting the first class and the first site, every attempt after the
first hits the duplicate, so the run ends with a single inserted pair. -/
theorem claim_c5_cex :
    N * 4 ≤ (List.range 100).length * (List.range 40).length
    ∧ (linkRun (List.range 100) (List.range 40) (fun _ => (0, 0))).ins ≠ N := by
  constructor
  · rw [List.length_range, List.length_range]
    decide
  · have ho : ∀ k, (pyChoiceD (List.range 100) 0 (((fun (_ : Nat) => ((0 : Nat), (0 : Nat))) k).1),
        pyChoiceD (List.range 40) 0 (((fun (_ : Nat) => ((0 : Nat), (0 : Nat))) k).2)) = (0, 0) :=
      fun _ => rfl
    have hstep : linkStep (List.range 100) (List.range 40) (fun _ => (0, 0)) linkInit
        = { ins := 1, att := 1, pares := [(0, 0)] } := by decide
    have h1 : linkRun (List.range 100) (List.range 40) (fun _ => (0, 0))
        = linkLoop (List.range 100) (List.range 40) (fun _ => (0, 0)) 3999
          { ins := 1, att := 1, pares := [(0, 0)] } := by
      rw [linkRun, show N * 4 = 3999 + 1 from by decide, linkLoop, if_pos (by decide), hstep]
    have h2 := linkLoop_const_pair (List.range 100) (List.range 40) (fun _ => (0, 0)) (0, 0) ho
      3999 { ins := 1, att := 1, pares := [(0, 0)] } (by decide)
    rw [h1, h2]
    decide

/-- C5 (amended): for nonempty id lists the loop always stops within
`N * 4 = 4000` attempts having inserted at most `N = 1000` pairs, the
inserted pairs contain no duplicate, and when the available cross-product
`classes × sites` is smaller than `N = 1000` the loop ends with fewer than
`N` rows. Producing exactly `N` pairs whenever `classes × sites ≥ 4000` is
not guaranteed: it depends on the random draws (see the counterexample). -/
theorem claim_c5_link_pairs (ci si : List Nat) (o : Nat → Nat × Nat)
    (hci : ci ≠ []) (hsi : si ≠ []) :
    (linkRun ci si o).pares.Nodup
    ∧ (linkRun ci si o).att ≤ N * 4
    ∧ (linkRun ci si o).ins ≤ N
    ∧ (ci.length * si.length < N → (linkRun ci si o).ins < N) := by
  have hinv := linkRun_inv o hci hsi
  refine ⟨hinv.nodup, hinv.attLe, hinv.insLe, fun hlt => ?_⟩
  have hsub : (linkRun ci si o).pares.toFinset ⊆ ci.toFinset ×ˢ si.toFinset := by
    intro p hp
    rw [List.mem_toFinset] at hp
    obtain ⟨h1, h2⟩ := hinv.mem p hp
    exact Finset.mem_product.mpr ⟨List.mem_toFinset.mpr h1, List.mem_toFinset.mpr h2⟩
  have hlen : (linkRun ci si o).ins ≤ ci.length * si.length := by
    calc (linkRun ci si o).ins = (linkRun ci si o).pares.length := hinv.len.symm
      _ = (linkRun ci si o).pares.toFinset.card := (List.toFinset_card_of_nodup hinv.nodup).symm
      _ ≤ (ci.toFinset ×ˢ si.toFinset).card := Finset.card_le_card hsub
      _ = ci.toFinset.card * si.toFinset.card := Finset.card_product _ _
      _ ≤ ci.length * si.length := Nat.mul_le_mul ci.toFinset_card_le si.toFinset_card_le
  omega

theorem claim_c5_witness :
    ([0] : List Nat) ≠ [] ∧ ([1] : List Nat) ≠ []
    ∧ ((linkRun [0] [1] (fun _ => (0, 0))).pares.Nodup
      ∧ (linkRun [0] [1] (fun _ => (0, 0))).att ≤ N * 4
      ∧ (linkRun [0] [1] (fun _ => (0, 0))).ins ≤ N
      ∧ (([0] : List Nat).length * ([1] : List Nat).length < N
        → (linkRun [0] [1] (fun _ => (0, 0))).ins < N)) :=
  ⟨by decide, by decide, claim_c5_link_pairs [0] [1] (fun _ => (0, 0)) (by decide) (by decide)⟩

/-! ## Lemmas about batched persistence -/

theorem pushBatch_spec (s : BatchState α) (a : α) (h : s.count = s.flushed.length) :
    (pushBatch s a).flushed ++ (pushBatch s a).batch = s.flushed ++ s.batch ++ [a]
    ∧ (pushBatch s a).count = (pushBatch s a).flushed.length := by
  unfold pushBatch
  split
  · constructor
    · simp
    · simp [h]
  · constructor
    · simp
    · exact h

theorem foldl_pushBatch_spec (xs : List α) : ∀ (s : BatchState α),
    s.count = s.flushed.length →
    (xs.foldl pushBatch s).flushed ++ (xs.foldl pushBatch s).batch = s.flushed ++ s.batch ++ xs
    ∧ (xs.foldl pushBatch s).count = (xs.foldl pushBatch s).flushed.length := by
  induction xs with
  | nil =>
    intro s h
    simpa using h
  | cons a xs ih =>
    intro s h
    simp only [List.foldl_cons]
    obtain ⟨h1, h2⟩ := pushBatch_spec s a h
    obtain ⟨h3, h4⟩ := ih (pushBatch s a) h2
    refine ⟨?_, h4⟩
    rw [h3, h1]
    simp

theorem finishBatch_spec (s : BatchState α) (h : s.count = s.flushed.length) :
    (finishBatch s).flushed = s.flushed ++ s.batch
    ∧ (finishBatch s).count = (finishBatch s).flushed.length := by
  unfold finishBatch
  split
  · next he =>
    rw [List.isEmpty_iff] at he
    simp [he, h]
  · constructor
    · simp
    · simp [h]

/-- The batched insert path flushes exactly the generated rows, and the
running counter ends at their number. -/
theorem batchRun_spec (xs : List α) :
    (batchRun xs).flushed = xs ∧ (batchRun xs).count = xs.length := by
  obtain ⟨h1, h2⟩ := foldl_pushBatch_spec xs (batchInit : BatchState α) rfl
  obtain ⟨h3, h4⟩ := finishBatch_spec (xs.foldl pushBatch batchInit) h2
  have h5 : (batchRun xs).flushed = xs := by
    rw [batchRun, h3]
    simpa [batchInit] using h1
  refine ⟨h5, ?_⟩
  rw [batchRun, h4, ← batchRun, h5]

/-! ## C3: the final counts -/

/-- C3: a complete run inserts exactly `N = 1000` rows into sede, docente,
clase, matricula, alumno, pago and asistencia, at most `N` rows into
clase_has_sede, and the eight counts of the final summary (lengths of the
id collections plus the relationship / payment / attendance counters) are
exactly the numbers of rows inserted into the corresponding tables. -/
theorem claim_c3_counts (o : Oracles) :
    (sedeRows o).length = N ∧ (docenteRows o).length = N ∧ (claseRows o).length = N
    ∧ (matriculaRows o).length = N ∧ (alumnoRows o).length = N
    ∧ (pagoRun o).flushed.length = N ∧ (asistRun o).flushed.length = N
    ∧ (linkRunO o).pares.length ≤ N
    ∧ resumen o =
      { sedes := (sedeRows o).length
        docentes := (docenteRows o).length
        clases := (claseRows o).length
        matriculas := (matriculaRows o).length
        alumnos := (alumnoRows o).length
        clase_has_sede := (linkRunO o).pares.length
        pagos := (pagoRun o).flushed.length
        asistencias := (asistRun o).flushed.length } := by
  have hinv : LinkInv (clase_ids o) (sede_ids o) (linkRunO o) :=
    linkRun_inv o.link (rangeN_map_ne_nil _) (rangeN_map_ne_nil _)
  have hpago := batchRun_spec (pagoRows o)
  have hasist := batchRun_spec (asistRows o)
  have hpagoLen : (pagoRows o).length = N := by simp [pagoRows]
  have hasistLen : (asistRows o).length = N := by simp [asistRows]
  have hp1 : (pagoRun o).flushed.length = N := by
    rw [pagoRun, hpago.1, hpagoLen]
  have ha1 : (asistRun o).flushed.length = N := by
    rw [asistRun, hasist.1, hasistLen]
  refine ⟨by simp [sedeRows], by simp [docenteRows], by simp [claseRows],
    by simp [matriculaRows], by simp [alumnoRows], hp1, ha1,
    le_trans (le_of_eq hinv.len) hinv.insLe, ?_⟩
  simp only [resumen, Resumen.mk.injEq]
  refine ⟨by simp [sede_ids, sedeRows], by simp [docente_ids, docenteRows],
    by simp [clase_ids, claseRows], by simp [matricula_ids, matriculaRows],
    by simp [alumno_ids, alumnoRows], hinv.len.symm, ?_, ?_⟩
  · rw [pagoRun, hpago.2, hpagoLen, hpago.1, hpagoLen]
  · rw [asistRun, hasist.2, hasistLen, hasist.1, hasistLen]

/-! ## C1: referential integrity and generation order -/

theorem genClase_docente_id (ids : List Nat) (r : ClaseRand) :
    (genClase ids r).docente_id = pyChoiceD ids 0 r.fkDoc := rfl

theorem genAlumno_fks (mids sids : List Nat) (r : AlumnoRand) :
    (genAlumno mids sids r).matricula_id = pyChoiceD mids 0 r.fkMat
    ∧ (genAlumno mids sids r).sede_id = pyChoiceD sids 0 r.fkSede := ⟨rfl, rfl⟩

theorem genPago_alumno_id (ids : List Nat) (now : ℚ) (r : PagoRand) :
    (genPago ids now r).alumno_id = pyChoiceD ids 0 r.fkAl := rfl

theorem genAsist_fks (aids cids sids : List Nat) (now : ℚ) (r : AsistRand) :
    (genAsist aids cids sids now r).alumno_id = pyChoiceD aids 0 r.fkAl
    ∧ (genAsist aids cids sids now r).clase_id = pyChoiceD cids 0 r.fkCl
    ∧ (genAsist aids cids sids now r).sede_id = pyChoiceD sids 0 r.fkSede := ⟨rfl, rfl, rfl⟩

theorem map_fst_tagged {β : Type} (rows : List β) (tag : Tabla) (f : β → List Nat) :
    (rows.map fun r => (tag, f r)).map Prod.fst = List.replicate rows.length tag := by
  induction rows with
  | nil => rfl
  | cons a l ih => simp [List.replicate_succ, ih]

/-- C1: every foreign key of every inserted child row is a member of the
(fully populated, `N`-element) id collection of its parent table, and the
insertion trace consists of the eight per-table blocks in the strict
source order sede, docente, clase, matricula, alumno, clase_has_sede,
pago, asistencia — so all `N` parent inserts precede every child insert. -/
theorem claim_c1_referential_integrity (o : Oracles) :
    ((sede_ids o).length = N ∧ (docente_ids o).length = N ∧ (clase_ids o).length = N
      ∧ (matricula_ids o).length = N ∧ (alumno_ids o).length = N)
    ∧ (∀ r ∈ claseRows o, r.docente_id ∈ docente_ids o)
    ∧ (∀ r ∈ alumnoRows o, r.matricula_id ∈ matricula_ids o ∧ r.sede_id ∈ sede_ids o)
    ∧ (∀ p ∈ (linkRunO o).pares, p.1 ∈ clase_ids o ∧ p.2 ∈ sede_ids o)
    ∧ (∀ r ∈ (pagoRun o).flushed, r.alumno_id ∈ alumno_ids o)
    ∧ (∀ r ∈ (asistRun o).flushed,
        r.alumno_id ∈ alumno_ids o ∧ r.clase_id ∈ clase_ids o ∧ r.sede_id ∈ sede_ids o)
    ∧ (insertTrace o).map Prod.fst
      = List.replicate N Tabla.sede ++ List.replicate N Tabla.docente
        ++ List.replicate N Tabla.clase ++ List.replicate N Tabla.matricula
        ++ List.replicate N Tabla.alumno
        ++ List.replicate (linkRunO o).ins Tabla.clase_has_sede
        ++ List.replicate N Tabla.pago ++ List.replicate N Tabla.asistencia := by
  have hinv : LinkInv (clase_ids o) (sede_ids o) (linkRunO o) :=
    linkRun_inv o.link (rangeN_map_ne_nil _) (rangeN_map_ne_nil _)
  have hpago := batchRun_spec (pagoRows o)
  have hasist := batchRun_spec (asistRows o)
  refine ⟨⟨by simp [sede_ids], by simp [docente_ids], by simp [clase_ids],
    by simp [matricula_ids], by simp [alumno_ids]⟩, ?_, ?_, ?_, ?_, ?_, ?_⟩
  · intro r hr
    obtain ⟨i, _, rfl⟩ := List.mem_map.mp hr
    rw [genClase_docente_id]
    exact pyChoiceD_mem _ _ _ (rangeN_map_ne_nil _)
  · intro r hr
    obtain ⟨i, _, rfl⟩ := List.mem_map.mp hr
    rw [(genAlumno_fks _ _ _).1, (genAlumno_fks _ _ _).2]
    exact ⟨pyChoiceD_mem _ _ _ (rangeN_map_ne_nil _), pyChoiceD_mem _ _ _ (rangeN_map_ne_nil _)⟩
  · exact hinv.mem
  · intro r hr
    rw [pagoRun, hpago.1] at hr
    obtain ⟨i, _, rfl⟩ := List.mem_map.mp hr
    rw [genPago_alumno_id]
    exact pyChoiceD_mem _ _ _ (rangeN_map_ne_nil _)
  · intro r hr
    rw [asistRun, hasist.1] at hr
    obtain ⟨i, _, rfl⟩ := List.mem_map.mp hr
    rw [(genAsist_fks _ _ _ _ _).1, (genAsist_fks _ _ _ _ _).2.1, (genAsist_fks _ _ _ _ _).2.2]
    exact ⟨pyChoiceD_mem _ _ _ (rangeN_map_ne_nil _), pyChoiceD_mem _ _ _ (rangeN_map_ne_nil _),
      pyChoiceD_mem _ _ _ (rangeN_map_ne_nil _)⟩
  · rw [insertTrace]
    simp only [List.map_append, map_fst_tagged]
    rw [pagoRun, hpago.1, asistRun, hasist.1]
    simp only [List.length_reverse, hinv.len]
    simp [sedeRows, docenteRows, claseRows, matriculaRows, alumnoRows, pagoRows, asistRows]

/-! ## C6: the payment value -/

theorem round2_bounds {q : ℚ} (h1 : 20000 ≤ q) (h2 : q ≤ 150000) :
    20000 ≤ round2 q ∧ round2 q ≤ 150000 := by
  have hz1 : (2000000 : ℤ) ≤ round (q * 100) := by
    rw [round_eq]
    refine Int.le_floor.mpr ?_
    push_cast
    linarith
  have hz2 : round (q * 100) ≤ (15000000 : ℤ) := by
    rw [round_eq]
    have hlt : ⌊q * 100 + 1 / 2⌋ < (15000001 : ℤ) := by
      refine Int.floor_lt.mpr ?_
      push_cast
      linarith
    omega
  unfold round2
  constructor
  · rw [le_div_iff₀ (by norm_num : (0 : ℚ) < 100)]
    calc (20000 : ℚ) * 100 = ((2000000 : ℤ) : ℚ) := by norm_num
      _ ≤ _ := Int.cast_le.mpr hz1
  · rw [div_le_iff₀ (by norm_num : (0 : ℚ) < 100)]
    calc ((round (q * 100) : ℤ) : ℚ) ≤ ((15000000 : ℤ) : ℚ) := Int.cast_le.mpr hz2
      _ = 150000 * 100 := by norm_num

/-- The rounded value is an exact two-decimal fixed-point number: one
hundred times it is an integer. -/
theorem round2_den (q : ℚ) : (round2 q * 100).den = 1 := by
  unfold round2
  rw [div_mul_cancel₀ _ (by norm_num : (100 : ℚ) ≠ 0)]
  exact Rat.den_intCast _

/-- C6: every non-null `pago.valor_pago` the generator produces is either
exactly the fixed common value 50000.00, or a two-decimal fixed-point
value in `[20000, 150000]` (one hundred times it is an integer, so there
is no rounding drift), provided the uniform draw respects its
`random.uniform(20000, 150000)` contract. -/
theorem claim_c6_valor_pago (ids : List Nat) (now : ℚ) (r : PagoRand) (v : ℚ)
    (h1 : 20000 ≤ r.uV) (h2 : r.uV ≤ 150000)
    (h3 : (genPago ids now r).valor_pago = some v) :
    v = common_val ∨ (20000 ≤ v ∧ v ≤ 150000 ∧ (v * 100).den = 1) := by
  rw [show (genPago ids now r).valor_pago
    = maybe_null r.nullV (if r.lvV < lowVarianceRatio then common_val else round2 r.uV)
    from rfl, maybe_null] at h3
  split at h3
  · exact absurd h3 (by simp)
  · have hv := Option.some.inj h3
    by_cases hl : r.lvV < lowVarianceRatio
    · rw [if_pos hl] at hv
      exact Or.inl hv.symm
    · rw [if_neg hl] at hv
      subst hv
      exact Or.inr ⟨(round2_bounds h1 h2).1, (round2_bounds h1 h2).2, round2_den _⟩

theorem claim_c6_witness :
    (20000 : ℚ) ≤ 20000 ∧ (20000 : ℚ) ≤ 150000
    ∧ (common_val = common_val
      ∨ (20000 ≤ common_val ∧ common_val ≤ 150000 ∧ (common_val * 100).den = 1)) :=
  ⟨le_refl _, by norm_num,
    claim_c6_valor_pago [] 0
      { dateR := 0, lvV := 0, uV := 20000, perR := 1, perIdx := 0, perLen := 0,
        perCh := fun _ => 0, nullV := 1, nullP := 1, fkAl := 0 }
      common_val (le_refl _) (by norm_num)
      (by norm_num [genPago, maybe_null, nullRatio, lowVarianceRatio])⟩

/-! ## C9: independence of the schema-relaxation statements -/

theorem foldl_snd_count (g : Nat × Nat → Nat → Nat) (l : List Nat) :
    ∀ p : Nat × Nat, (l.foldl (fun p i => (g p i, p.2 + 1)) p).2 = p.2 + l.length := by
  induction l with
  | nil =>
    intro p
    simp
  | cons a l ih =>
    intro p
    rw [List.foldl_cons, ih]
    simp
    omega

theorem execOps_absorbed_append (fail : Nat → Option String) (n : Nat) :
    ∀ (k : Nat) (rest : List OpKind),
      execOps fail (List.replicate n OpKind.absorbed ++ rest) k = execOps fail rest (k + n) := by
  induction n with
  | zero =>
    intro k rest
    simp [List.replicate]
  | succ m ih =>
    intro k rest
    rw [List.replicate_succ, List.cons_append, execOps, ih]
    congr 1
    omega

/-- C9: each of the ten ALTER statements of the fixed relaxation list is
attempted regardless of how many of the others raised (the attempt counter
of the loop always ends at the list's length, 10), and since every one of
them is an absorbed operation, execution always passes through the whole
relaxation block and continues with the rest of the run, whatever errors
arose there. -/
theorem claim_c9_alters :
    alters.length = 10
    ∧ (∀ fails : Nat → Bool, (runAlters fails).2 = alters.length)
    ∧ (∀ (fail : Nat → Option String) (k : Nat) (rest : List OpKind),
        execOps fail (List.replicate 10 OpKind.absorbed ++ rest) k = execOps fail rest (k + 10)) := by
  refine ⟨rfl, fun fails => ?_, fun fail k rest => execOps_absorbed_append fail 10 k rest⟩
  rw [runAlters, foldl_snd_count (fun p i => if fails i then p.1 else p.1 + 1)]
  simp

/-! ## C7: fatal errors reach the single outermost handler, then cleanup -/

/-- C7: when the port parses and some fatal-eligible database operation of
the run raises, the error is caught once at the outermost level: exactly
one error line is printed, carrying that error's message, and afterwards
the cursor and the connection are closed, with a normal (not
exception-propagating) exit — the same normal exit and the same two
closing events a successful run produces. -/
theorem claim_c7_fatal_cleanup (rawPort : String) (p : Int) (anyApplied : Bool)
    (fail : Nat → Option String) (msg : String)
    (hport : pyInt (portString rawPort) = some p)
    (hfail : execOps fail (genOps anyApplied) 0 = some msg) :
    mainSkeleton rawPort (genOps anyApplied) fail
      = { events := [Ev.errLine msg, Ev.cursorClose, Ev.connClose], uncaught := false }
    ∧ (mainSkeleton rawPort (genOps anyApplied) fail).events.countP
        (fun e => match e with | Ev.errLine _ => true | _ => false) = 1
    ∧ (∀ fail2 : Nat → Option String, execOps fail2 (genOps anyApplied) 0 = none →
        mainSkeleton rawPort (genOps anyApplied) fail2
          = { events := [Ev.cursorClose, Ev.connClose], uncaught := false }) := by
  refine ⟨?_, ?_, ?_⟩
  · rw [mainSkeleton, hport, hfail]
  · rw [mainSkeleton, hport, hfail]
    rfl
  · intro fail2 hnone
    rw [mainSkeleton, hport, hnone]

theorem claim_c7_witness :
    pyInt (portString ("3306")) = some 3306
    ∧ execOps (fun _ => some ("boom")) (genOps false) 0 = some ("boom")
    ∧ mainSkeleton ("3306") (genOps false) (fun _ => some ("boom"))
      = { events := [Ev.errLine ("boom"), Ev.cursorClose, Ev.connClose], uncaught := false } :=
  ⟨rfl, rfl,
    (claim_c7_fatal_cleanup ("3306") 3306 false (fun _ => some ("boom")) ("boom") rfl rfl).1⟩

/-! ## C10: a non-numeric port escapes uncaught, before the try block -/

/-- C10: the outermost handler catches only database errors, and the
connection-parameter prompts — including `port = int(port_input)` — run
before the `try` block, so a port string `int()` rejects raises an
uncaught `ValueError`: no error line is printed, no cursor or connection
close happens, and the process terminates abnormally, whatever the rest of
the run would have done. -/
theorem claim_c10_port (rawPort : String) (ops : List OpKind) (fail : Nat → Option String)
    (h : pyInt (portString rawPort) = none) :
    mainSkeleton rawPort ops fail = { events := [], uncaught := true } := by
  rw [mainSkeleton, h]

theorem claim_c10_witness :
    pyInt (portString ("abc")) = none
    ∧ mainSkeleton ("abc") [] (fun _ => none) = { events := [], uncaught := true } :=
  ⟨by decide, claim_c10_port ("abc") [] (fun _ => none) (by decide)⟩

end CargarDatos
